import Mathlib

/-!
Shallow embedding of the onboarding / reauthentication config flow of the
`vulcan-for-hassio` integration (`custom_components/vulcan/config_flow.py`).

Modelling conventions:
* A credential (`RsaCredential`) is opaque to the flow; it is modelled as a
  `Nat`.  `model_dump` / `model_validate` (serialization round-trip) are the
  identity on this opaque value.
* A student profile (`Account`) is modelled by the only fields the flow reads:
  `pupil.id`, `pupil.first_name`, `pupil.second_name`, `pupil.surname`.
  `pupil.id` is an integer; Python's `str(id)` is `toString`.
* A config entry carries the fields the flow reads and writes: the Home
  Assistant `entry_id`, the `title`, and the data payload
  `{student_id, credential}`.  For entries created by this flow the unique id
  equals the `student_id` string, so `_abort_if_unique_id_configured` is
  modelled as a scan of the entries for a matching `student_id`.
* The network calls (`register` + `IrisClient.get_students`) happen inside one
  `try` block; their combined outcome is passed in as an `Except` value.  The
  exception classes imported from the `.iris` package are modelled as a flat
  enumeration of distinct kinds (the classes are distinct leaf exceptions);
  `unexpected` stands for any exception outside that taxonomy.
* A step returns a `FlowResult` and the (possibly updated) session state
  (`self.credential`, `self.students`).  An uncaught Python exception escaping
  the step handler is the dedicated result `FlowResult.crash`.
-/

structure Pupil where
  id : Nat
  first_name : String
  second_name : Option String
  surname : String
deriving DecidableEq, Repr

structure Account where
  pupil : Pupil
deriving DecidableEq, Repr

/-- `_format_student_name` (config_flow.py lines 47-52).
`parts = [first_name]`; `if student.pupil.second_name:` appends the middle
name when it is truthy (present and non-empty); the surname is appended
unconditionally; finally `" ".join(part for part in parts if part)` drops
falsy (empty) parts and joins with single spaces. -/
def _format_student_name (student : Account) : String :=
  let parts : List String :=
    [student.pupil.first_name]
      ++ (match student.pupil.second_name with
          | some s => if s != "" then [s] else []
          | none => [])
      ++ [student.pupil.surname]
  String.intercalate " " (parts.filter (fun part => part != ""))

structure Entry where
  entry_id : Nat
  title : String
  student_id : String
  credential : Nat
deriving DecidableEq, Repr

/-- The session-scoped mutable fields of `VulcanFlowHandler`:
`self.credential` and `self.students`. -/
structure FlowState where
  credential : Option Nat
  students : Option (List Account)
deriving DecidableEq, Repr

/-- The exception taxonomy observed by the flow's `except` clauses.  The named
kinds are the classes imported from `.iris` plus aiohttp's
`ClientConnectionError`; `unexpected` is any other exception. -/
inductive ApiError where
  | missingUnitSymbol
  | wrongToken
  | usedToken
  | wrongPIN
  | expiredToken
  | failedRequest
  | httpUnsuccessfullStatus
  | clientConnectionError
  | certificateNotFound
  | unexpected
deriving DecidableEq, Repr

/-- What a step hands back to the caller: a created entry
(`async_create_entry` with its title and data payload), an abort
(`async_abort`), a rendered form (`async_show_form` with the step id and the
`errors["base"]` code), or an uncaught exception escaping the handler. -/
inductive FlowResult where
  | createEntry (title : String) (student_id : String) (credential : Nat)
  | abort (reason : String)
  | showForm (step : String) (error : Option String)
  | crash
deriving DecidableEq, Repr

structure LoginInput where
  token : String
  region : String
  pin : String
deriving DecidableEq, Repr

/-- The `except` chain shared verbatim by `async_step_auth` (lines 91-107) and
`async_step_reauth_confirm` (lines 286-302): exception kind to `errors["base"]`
code.  `CertificateNotFoundException` has no dedicated clause in these two
steps and falls into the broad `except Exception`. -/
def registrationErrorCode : ApiError → String
  | ApiError.missingUnitSymbol => "invalid_symbol"
  | ApiError.wrongToken => "invalid_token"
  | ApiError.usedToken => "invalid_token"
  | ApiError.wrongPIN => "invalid_pin"
  | ApiError.expiredToken => "expired_token"
  | ApiError.failedRequest => "cannot_connect"
  | ApiError.httpUnsuccessfullStatus => "cannot_connect"
  | ApiError.clientConnectionError => "cannot_connect"
  | ApiError.certificateNotFound => "unknown"
  | ApiError.unexpected => "unknown"

/-- The finalization sequence shared by `async_step_auth`,
`async_step_select_saved_credentials` and `async_step_add_next_config_entry`:
`await self.async_set_unique_id(str(student.pupil.id))`;
`self._abort_if_unique_id_configured()`; `return self.async_create_entry(...)`
with title `_format_student_name(student)` and data
`{student_id, credential}`. -/
def finalize (entries : List Entry) (student : Account) (credential : Nat) :
    FlowResult :=
  if entries.any (fun e => e.student_id == toString student.pupil.id) then
    FlowResult.abort "already_configured"
  else
    FlowResult.createEntry (_format_student_name student)
      (toString student.pupil.id) credential

/-- Python `dict` subscript for a dict built by iterated assignment:
a later assignment to the same key overrides an earlier one; a missing key is
`none` (a `KeyError` at the call site). -/
def pyDictGet : List (String × String) → String → Option String
  | [], _ => none
  | (k, v) :: rest, key =>
    match pyDictGet rest key with
    | some v2 => some v2
    | none => if k == key then some v else none

/-- The `students` dict built at the top of `async_step_select_student`
(lines 133-136): `students[str(student.pupil.id)] = _format_student_name(student)`
for each stashed student; empty when `self.students is None`. -/
def studentChoices (students : Option (List Account)) :
    List (String × String) :=
  match students with
  | none => []
  | some ss => ss.map (fun s => (toString s.pupil.id, _format_student_name s))

/-- `async_step_select_student` (lines 130-153).  When input was submitted and
a credential is stashed: unique-id check, then `async_create_entry` with
`title=students[student_id]` (a missing key would raise `KeyError`, hence
`crash`).  Otherwise the form is shown again. -/
def async_step_select_student (entries : List Entry)
    (user_input : Option String) (st : FlowState) : FlowResult × FlowState :=
  let choices := studentChoices st.students
  match user_input, st.credential with
  | some student_id, some credential =>
    if entries.any (fun e => e.student_id == student_id) then
      (FlowResult.abort "already_configured", st)
    else
      match pyDictGet choices student_id with
      | some title => (FlowResult.createEntry title student_id credential, st)
      | none => (FlowResult.crash, st)
  | _, _ => (FlowResult.showForm "select_student" none, st)

/-- `async_step_auth` (lines 78-128).  `api` is the combined outcome of
`register` and `get_students` inside the `try` block.  On success with more
than one student the credential and students are stashed and
`async_step_select_student` is invoked; with at most one student,
`students[0]` is taken (an `IndexError`, hence `crash`, on an empty list) and
finalized. -/
def async_step_auth (entries : List Entry) (user_input : Option LoginInput)
    (errors : Option String) (api : Except ApiError (Nat × List Account))
    (st : FlowState) : FlowResult × FlowState :=
  match user_input with
  | none => (FlowResult.showForm "auth" errors, st)
  | some _ =>
    match api with
    | Except.error e =>
      (FlowResult.showForm "auth" (some (registrationErrorCode e)), st)
    | Except.ok (credential, students) =>
      if students.length > 1 then
        async_step_select_student entries none
          ⟨some credential, some students⟩
      else
        match students with
        | [] => (FlowResult.crash, st)
        | student :: _ => (finalize entries student credential, st)

/-- `async_step_select_saved_credentials` (lines 155-207).  The chosen entry is
looked up by `entry_id` (a `None` entry would fail on `.data`, hence `crash`);
its stored credential is deserialized and `get_students` is attempted.
`CertificateNotFoundException` re-enters `async_step_auth` with the
`expired_credentials` error (which, with no user input, renders the auth
form); connection failures re-enter this same step with `cannot_connect`
(rendering this form); any other exception re-enters auth with `unknown`.
On success: exactly one student finalizes, otherwise the credential and
students are stashed and `async_step_select_student` is invoked. -/
def async_step_select_saved_credentials (entries : List Entry)
    (user_input : Option Nat) (errors : Option String)
    (api : Except ApiError (List Account)) (st : FlowState) :
    FlowResult × FlowState :=
  match user_input with
  | none => (FlowResult.showForm "select_saved_credentials" errors, st)
  | some entry_key =>
    match entries.find? (fun e => e.entry_id == entry_key) with
    | none => (FlowResult.crash, st)
    | some entry =>
      match api with
      | Except.error ApiError.certificateNotFound =>
        (FlowResult.showForm "auth" (some "expired_credentials"), st)
      | Except.error ApiError.failedRequest =>
        (FlowResult.showForm "select_saved_credentials"
          (some "cannot_connect"), st)
      | Except.error ApiError.httpUnsuccessfullStatus =>
        (FlowResult.showForm "select_saved_credentials"
          (some "cannot_connect"), st)
      | Except.error ApiError.clientConnectionError =>
        (FlowResult.showForm "select_saved_credentials"
          (some "cannot_connect"), st)
      | Except.error _ =>
        (FlowResult.showForm "auth" (some "unknown"), st)
      | Except.ok students =>
        if students.length == 1 then
          match students with
          | student :: _ => (finalize entries student entry.credential, st)
          | [] => (FlowResult.crash, st)
        else
          async_step_select_student entries none
            ⟨some entry.credential, some students⟩

/-- `async_step_add_next_config_entry` (lines 209-267).  Opting out of saved
credentials renders the auth form; with more than one stored entry the
saved-credentials form is rendered; with no stored entry `existing_entries[0]`
raises (`crash`).  Otherwise the single stored credential is used for the
directory call; `CertificateNotFoundException` re-enters auth with
`expired_credentials`; connection failures re-render this form with
`cannot_connect`; there is no broad `except` here, so any other exception
escapes (`crash`).  On success the students already configured are filtered
out; an empty remainder aborts, a singleton finalizes, more are stashed for
`async_step_select_student`. -/
def async_step_add_next_config_entry (entries : List Entry)
    (user_input : Option Bool) (api : Except ApiError (List Account))
    (st : FlowState) : FlowResult × FlowState :=
  match user_input with
  | none => (FlowResult.showForm "add_next_config_entry" none, st)
  | some use_saved =>
    if !use_saved then
      (FlowResult.showForm "auth" none, st)
    else if entries.length > 1 then
      (FlowResult.showForm "select_saved_credentials" none, st)
    else
      match entries with
      | [] => (FlowResult.crash, st)
      | first_entry :: _ =>
        match api with
        | Except.error ApiError.certificateNotFound =>
          (FlowResult.showForm "auth" (some "expired_credentials"), st)
        | Except.error ApiError.failedRequest =>
          (FlowResult.showForm "add_next_config_entry"
            (some "cannot_connect"), st)
        | Except.error ApiError.httpUnsuccessfullStatus =>
          (FlowResult.showForm "add_next_config_entry"
            (some "cannot_connect"), st)
        | Except.error ApiError.clientConnectionError =>
          (FlowResult.showForm "add_next_config_entry"
            (some "cannot_connect"), st)
        | Except.error _ => (FlowResult.crash, st)
        | Except.ok students =>
          let existing_entry_ids := entries.map (fun e => e.student_id)
          let new_students := students.filter
            (fun s => !(existing_entry_ids.contains (toString s.pupil.id)))
          if new_students.isEmpty then
            (FlowResult.abort "all_student_already_configured", st)
          else
            match new_students with
            | [new_student] =>
              (finalize entries new_student first_entry.credential, st)
            | _ =>
              async_step_select_student entries none
                ⟨some first_entry.credential, some new_students⟩

/-- The in-place update performed by `async_update_entry` during
reauthentication (lines 311-318): title and data payload replaced, entry id
unchanged. -/
def updateEntry (credential : Nat) (student : Account) (e : Entry) : Entry :=
  ⟨e.entry_id, _format_student_name student, toString student.pupil.id,
    credential⟩

/-- One iteration of the outer `for student in students` loop of
`async_step_reauth_confirm` (lines 308-322): every entry whose stored
`student_id` equals `str(student.pupil.id)` is updated in place and its
`entry_id` queued for reload, and the `matching_entries` flag is raised. -/
def reauthStudentPass (credential : Nat)
    (acc : List Entry × List Nat × Bool) (student : Account) :
    List Entry × List Nat × Bool :=
  (acc.1.map (fun e =>
      if toString student.pupil.id == e.student_id then
        updateEntry credential student e
      else e),
   acc.2.1 ++ (acc.1.filter
      (fun e => toString student.pupil.id == e.student_id)).map
      (fun e => e.entry_id),
   acc.2.2 || acc.1.any (fun e => toString student.pupil.id == e.student_id))

/-- `async_step_reauth_confirm` (lines 273-331).  Returns the flow result, the
entry list after the in-place updates, and the list of reloaded entry ids. -/
def async_step_reauth_confirm (entries : List Entry)
    (user_input : Option LoginInput)
    (api : Except ApiError (Nat × List Account)) :
    FlowResult × List Entry × List Nat :=
  match user_input with
  | none => (FlowResult.showForm "reauth_confirm" none, entries, [])
  | some _ =>
    match api with
    | Except.error e =>
      (FlowResult.showForm "reauth_confirm"
        (some (registrationErrorCode e)), entries, [])
    | Except.ok (credential, students) =>
      let result :=
        students.foldl (reauthStudentPass credential) (entries, [], false)
      if result.2.2 then
        (FlowResult.abort "reauth_successful", result.1, result.2.1)
      else
        (FlowResult.abort "no_matching_entries", result.1, result.2.1)

/-- How the Entry Store changes when the caller applies a step's result:
`createEntry` appends a new entry (the host assigns a fresh `entry_id`);
every other result leaves the store untouched. -/
def applyResult (entries : List Entry) (next_key : Nat) (r : FlowResult) :
    List Entry :=
  match r with
  | FlowResult.createEntry title student_id credential =>
    entries ++ [⟨next_key, title, student_id, credential⟩]
  | _ => entries

/-! ### General lemmas about the embedded operations -/

theorem intercalate_pair (a b : String) :
    String.intercalate " " [a, b] = a ++ " " ++ b := rfl

theorem intercalate_triple (a b c : String) :
    String.intercalate " " [a, b, c] = a ++ " " ++ b ++ " " ++ c := rfl

theorem finalize_creates (entries : List Entry) (P : Account) (c : Nat)
    (hP : ∀ e ∈ entries, e.student_id ≠ toString P.pupil.id) :
    finalize entries P c
      = FlowResult.createEntry (_format_student_name P)
          (toString P.pupil.id) c := by
  have hany : entries.any
      (fun e => e.student_id == toString P.pupil.id) = false := by
    simp only [List.any_eq_false]
    intro e he
    simpa using hP e he
  simp [finalize, hany]

theorem finalize_aborts (entries : List Entry) (P : Account) (c : Nat)
    (hP : ∃ e ∈ entries, e.student_id = toString P.pupil.id) :
    finalize entries P c = FlowResult.abort "already_configured" := by
  have hany : entries.any
      (fun e => e.student_id == toString P.pupil.id) = true := by
    simp only [List.any_eq_true]
    obtain ⟨e, he, hid⟩ := hP
    exact ⟨e, he, by simpa using hid⟩
  simp [finalize, hany]

/-- Reduction of `async_step_add_next_config_entry` for the saved-credentials
path with exactly one stored entry and a successful directory call. -/
theorem add_next_single_entry_ok (e : Entry) (students : List Account)
    (st : FlowState) :
    async_step_add_next_config_entry [e] (some true) (Except.ok students) st
      = (let new_students := students.filter
            (fun s => !((([e] : List Entry).map (fun e2 => e2.student_id)).contains
              (toString s.pupil.id)))
         if new_students.isEmpty then
           (FlowResult.abort "all_student_already_configured", st)
         else
           match new_students with
           | [new_student] => (finalize [e] new_student e.credential, st)
           | _ => async_step_select_student [e] none
               ⟨some e.credential, some new_students⟩) := rfl

/-! ### Claim theorems -/

/-- C1, counterexample: the display-name formatter does NOT omit a
whitespace-only middle name.  Python truthiness treats `" "` as truthy, so it
is kept and the result `"Jan   Kowalski"` contains a double space, contrary to
the claim, under which the result would be `"Jan Kowalski"`. -/
theorem C1_counterexample :
    _format_student_name ⟨⟨1, "Jan", some " ", "Kowalski"⟩⟩
      = "Jan   Kowalski" ∧
    _format_student_name ⟨⟨1, "Jan", some " ", "Kowalski"⟩⟩
      ≠ "Jan Kowalski" :=
  ⟨rfl, by decide⟩

/-- C1, amended: the formatter joins `first middle surname` with single
spaces, omitting a middle name that is absent (`None`) or empty; a non-empty
middle name — including a whitespace-only one — is kept verbatim. -/
theorem C1_format_name (first mid sur : String)
    (hf : first ≠ "") (hs : sur ≠ "") :
    _format_student_name ⟨⟨0, first, none, sur⟩⟩ = first ++ " " ++ sur ∧
    _format_student_name ⟨⟨0, first, some "", sur⟩⟩ = first ++ " " ++ sur ∧
    (mid ≠ "" → _format_student_name ⟨⟨0, first, some mid, sur⟩⟩
        = first ++ " " ++ mid ++ " " ++ sur) := by
  refine ⟨?_, ?_, fun hm => ?_⟩
  · simp [_format_student_name, hf, hs, intercalate_pair]
  · simp [_format_student_name, hf, hs, intercalate_pair]
  · simp [_format_student_name, hf, hs, hm, intercalate_triple]

/-- C1, witness for the amended theorem at `("Jan", "Maria", "Kowalski")`. -/
theorem C1_format_name_witness :
    _format_student_name ⟨⟨0, "Jan", some "Maria", "Kowalski"⟩⟩
      = "Jan" ++ " " ++ "Maria" ++ " " ++ "Kowalski" :=
  (C1_format_name "Jan" "Maria" "Kowalski" (by decide) (by decide)).2.2
    (by decide)

/-- C2, counterexample: the abort reason emitted when every discovered student
is already configured is the literal `"all_student_already_configured"`
(singular `student`), not `"all_students_already_configured"` as the claim
states. -/
theorem C2_counterexample :
    (async_step_add_next_config_entry [⟨0, "Jan Kowalski", "1", 5⟩]
        (some true) (Except.ok [⟨⟨1, "Jan", none, "Kowalski"⟩⟩])
        ⟨none, none⟩).1
      = FlowResult.abort "all_student_already_configured" ∧
    FlowResult.abort "all_student_already_configured"
      ≠ FlowResult.abort "all_students_already_configured" :=
  ⟨rfl, by decide⟩

/-- C2, amended: `add_next_config_entry` with saved credentials, exactly one
stored entry, and a directory result in which every student id is already
configured, aborts with reason `"all_student_already_configured"` and leaves
the Entry Store unchanged. -/
theorem C2_all_configured_aborts (e : Entry) (students : List Account)
    (st : FlowState) (k : Nat)
    (h : ∀ s ∈ students, toString s.pupil.id = e.student_id) :
    (async_step_add_next_config_entry [e] (some true)
        (Except.ok students) st).1
      = FlowResult.abort "all_student_already_configured" ∧
    applyResult [e] k
      (async_step_add_next_config_entry [e] (some true)
        (Except.ok students) st).1 = [e] := by
  have hfilter : List.filter
      (fun s => !(List.map (fun e2 => e2.student_id) [e]).contains
        (toString s.pupil.id)) students = [] := by
    apply List.filter_eq_nil_iff.mpr
    intro s hs
    simp [h s hs]
  simp only [add_next_single_entry_ok, hfilter, List.isEmpty_nil]
  simp [applyResult]

/-- C2, witness: one stored entry for student id 1, directory returning that
same student. -/
theorem C2_all_configured_aborts_witness :
    (async_step_add_next_config_entry [⟨0, "Jan Kowalski", "1", 5⟩]
        (some true) (Except.ok [⟨⟨1, "Jan", none, "Kowalski"⟩⟩])
        ⟨none, none⟩).1
      = FlowResult.abort "all_student_already_configured" ∧
    applyResult [⟨0, "Jan Kowalski", "1", 5⟩] 1
      (async_step_add_next_config_entry [⟨0, "Jan Kowalski", "1", 5⟩]
        (some true) (Except.ok [⟨⟨1, "Jan", none, "Kowalski"⟩⟩])
        ⟨none, none⟩).1 = [⟨0, "Jan Kowalski", "1", 5⟩] :=
  C2_all_configured_aborts ⟨0, "Jan Kowalski", "1", 5⟩
    [⟨⟨1, "Jan", none, "Kowalski"⟩⟩] ⟨none, none⟩ 1 (by decide)

/-- C3, counterexample: with exactly one profile whose student id is already
bound to an existing entry, `auth` does not finalize to a Created outcome —
the unique-id guard aborts the flow with `"already_configured"`. -/
theorem C3_counterexample :
    (async_step_auth [⟨0, "Jan Kowalski", "1", 5⟩] (some ⟨"t", "r", "p"⟩)
        none (Except.ok (7, [⟨⟨1, "Jan", none, "Kowalski"⟩⟩]))
        ⟨none, none⟩).1
      = FlowResult.abort "already_configured" ∧
    FlowResult.abort "already_configured"
      ≠ FlowResult.createEntry
          (_format_student_name ⟨⟨1, "Jan", none, "Kowalski"⟩⟩) "1" 7 :=
  ⟨rfl, by decide⟩

/-- C3, amended: provided the single remaining profile `P` is not already
bound to an existing entry, `auth`, `select_saved_credentials` (entry chosen
by key `k`), and `add_next_config_entry` (one stored entry, directory result
filtering down to `[P]`) each finalize directly to a Created outcome whose
title is `P`'s formatted display name and whose payload holds `P`'s pupil id
and the credential in use, never entering `select_student`. -/
theorem C3_single_profile_finalizes :
    (∀ (entries : List Entry) (inp : LoginInput) (cred : Nat) (P : Account)
        (st : FlowState),
      (∀ e ∈ entries, e.student_id ≠ toString P.pupil.id) →
      (async_step_auth entries (some inp) none
          (Except.ok (cred, [P])) st).1
        = FlowResult.createEntry (_format_student_name P)
            (toString P.pupil.id) cred) ∧
    (∀ (entries : List Entry) (k : Nat) (e0 : Entry) (P : Account)
        (st : FlowState),
      entries.find? (fun e => e.entry_id == k) = some e0 →
      (∀ e ∈ entries, e.student_id ≠ toString P.pupil.id) →
      (async_step_select_saved_credentials entries (some k) none
          (Except.ok [P]) st).1
        = FlowResult.createEntry (_format_student_name P)
            (toString P.pupil.id) e0.credential) ∧
    (∀ (e0 : Entry) (students : List Account) (P : Account) (st : FlowState),
      List.filter
        (fun s => !(List.map (fun e2 => e2.student_id) [e0]).contains
          (toString s.pupil.id)) students = [P] →
      (async_step_add_next_config_entry [e0] (some true)
          (Except.ok students) st).1
        = FlowResult.createEntry (_format_student_name P)
            (toString P.pupil.id) e0.credential) := by
  refine ⟨?_, ?_, ?_⟩
  · intro entries inp cred P st hP
    simp only [async_step_auth]
    rw [finalize_creates entries P cred hP]
    simp
  · intro entries k e0 P st hfind hP
    simp only [async_step_select_saved_credentials, hfind]
    rw [finalize_creates entries P e0.credential hP]
    simp
  · intro e0 students P st hfilter
    have hnew : e0.student_id ≠ toString P.pupil.id := by
      have hPmem : P ∈ List.filter
          (fun s => !(List.map (fun e2 => e2.student_id) [e0]).contains
            (toString s.pupil.id)) students := by
        rw [hfilter]; exact List.mem_singleton_self P
      have h2 := (List.mem_filter.mp hPmem).2
      simp at h2
      exact fun hEq => h2 hEq.symm
    simp only [add_next_single_entry_ok, hfilter]
    rw [finalize_creates [e0] P e0.credential (by
      intro e he
      rw [List.mem_singleton.mp he]
      exact hnew)]
    simp

/-- C3, witness: empty Entry Store for the auth part; a stored entry for a
different student (id 2) for the saved-credential and add-next parts, with the
directory returning student 1. -/
theorem C3_single_profile_finalizes_witness :
    (async_step_auth [] (some ⟨"t", "r", "p"⟩) none
        (Except.ok (7, [⟨⟨1, "Jan", none, "Kowalski"⟩⟩]))
        ⟨none, none⟩).1
      = FlowResult.createEntry
          (_format_student_name ⟨⟨1, "Jan", none, "Kowalski"⟩⟩) "1" 7 ∧
    (async_step_select_saved_credentials [⟨4, "Anna Nowak", "2", 9⟩]
        (some 4) none (Except.ok [⟨⟨1, "Jan", none, "Kowalski"⟩⟩])
        ⟨none, none⟩).1
      = FlowResult.createEntry
          (_format_student_name ⟨⟨1, "Jan", none, "Kowalski"⟩⟩) "1" 9 ∧
    (async_step_add_next_config_entry [⟨4, "Anna Nowak", "2", 9⟩]
        (some true) (Except.ok [⟨⟨1, "Jan", none, "Kowalski"⟩⟩])
        ⟨none, none⟩).1
      = FlowResult.createEntry
          (_format_student_name ⟨⟨1, "Jan", none, "Kowalski"⟩⟩) "1" 9 :=
  ⟨C3_single_profile_finalizes.1 [] ⟨"t", "r", "p"⟩ 7
      ⟨⟨1, "Jan", none, "Kowalski"⟩⟩ ⟨none, none⟩ (by decide),
   C3_single_profile_finalizes.2.1 [⟨4, "Anna Nowak", "2", 9⟩] 4
      ⟨4, "Anna Nowak", "2", 9⟩ ⟨⟨1, "Jan", none, "Kowalski"⟩⟩ ⟨none, none⟩
      (by decide) (by decide),
   C3_single_profile_finalizes.2.2 ⟨4, "Anna Nowak", "2", 9⟩
      [⟨⟨1, "Jan", none, "Kowalski"⟩⟩] ⟨⟨1, "Jan", none, "Kowalski"⟩⟩
      ⟨none, none⟩ (by decide)⟩

/-- C7: in `select_saved_credentials`, a directory failure with
`CertificateNotFoundException` re-enters `auth` carrying the error code
`expired_credentials`, while each connectivity/transport failure
(`FailedRequestException`, `HttpUnsuccessfullStatusException`,
`ClientConnectionError`) re-shows the same step with `cannot_connect`. -/
theorem C7_saved_credentials_failures (entries : List Entry) (k : Nat)
    (e0 : Entry) (errors : Option String) (st : FlowState)
    (hfind : entries.find? (fun e => e.entry_id == k) = some e0) :
    (async_step_select_saved_credentials entries (some k) errors
        (Except.error ApiError.certificateNotFound) st).1
      = FlowResult.showForm "auth" (some "expired_credentials") ∧
    (async_step_select_saved_credentials entries (some k) errors
        (Except.error ApiError.failedRequest) st).1
      = FlowResult.showForm "select_saved_credentials"
          (some "cannot_connect") ∧
    (async_step_select_saved_credentials entries (some k) errors
        (Except.error ApiError.httpUnsuccessfullStatus) st).1
      = FlowResult.showForm "select_saved_credentials"
          (some "cannot_connect") ∧
    (async_step_select_saved_credentials entries (some k) errors
        (Except.error ApiError.clientConnectionError) st).1
      = FlowResult.showForm "select_saved_credentials"
          (some "cannot_connect") := by
  refine ⟨?_, ?_, ?_, ?_⟩ <;>
    simp [async_step_select_saved_credentials, hfind]

/-- C7, witness at a one-entry store with the entry key 3 selected. -/
theorem C7_saved_credentials_failures_witness :
    (async_step_select_saved_credentials [⟨3, "Jan Kowalski", "1", 5⟩]
        (some 3) none (Except.error ApiError.certificateNotFound)
        ⟨none, none⟩).1
      = FlowResult.showForm "auth" (some "expired_credentials") ∧
    (async_step_select_saved_credentials [⟨3, "Jan Kowalski", "1", 5⟩]
        (some 3) none (Except.error ApiError.clientConnectionError)
        ⟨none, none⟩).1
      = FlowResult.showForm "select_saved_credentials"
          (some "cannot_connect") :=
  ⟨(C7_saved_credentials_failures [⟨3, "Jan Kowalski", "1", 5⟩] 3
      ⟨3, "Jan Kowalski", "1", 5⟩ none ⟨none, none⟩ (by decide)).1,
   (C7_saved_credentials_failures [⟨3, "Jan Kowalski", "1", 5⟩] 3
      ⟨3, "Jan Kowalski", "1", 5⟩ none ⟨none, none⟩ (by decide)).2.2.2⟩

/-- C8: an `ExpiredTokenException` during credential issuance surfaces as the
error code `expired_token` — never `unknown` — in both `auth` and
`reauth_confirm`. -/
theorem C8_expired_token_surfaces (entries : List Entry) (inp : LoginInput)
    (errors : Option String) (st : FlowState) :
    (async_step_auth entries (some inp) errors
        (Except.error ApiError.expiredToken) st).1
      = FlowResult.showForm "auth" (some "expired_token") ∧
    (async_step_reauth_confirm entries (some inp)
        (Except.error ApiError.expiredToken)).1
      = FlowResult.showForm "reauth_confirm" (some "expired_token") ∧
    registrationErrorCode ApiError.expiredToken = "expired_token" ∧
    "expired_token" ≠ "unknown" :=
  ⟨rfl, rfl, rfl, by decide⟩

/-- C9: the claim that `auth` never raises is violated by the code — with a
valid registration and a directory result of zero profiles, `students[0]`
raises `IndexError` out of the step; likewise `add_next_config_entry` has no
broad `except` clause, so an exception outside the explicit taxonomy escapes
the step. -/
theorem C9_crash_on_empty_directory :
    (async_step_auth [] (some ⟨"token", "region", "pin"⟩) none
        (Except.ok (7, ([] : List Account))) ⟨none, none⟩).1
      = FlowResult.crash ∧
    (async_step_add_next_config_entry [⟨0, "Jan Kowalski", "1", 5⟩]
        (some true) (Except.error ApiError.unexpected) ⟨none, none⟩).1
      = FlowResult.crash :=
  ⟨rfl, rfl⟩

/-- C10: `select_student` with submitted input but no stashed credential
re-renders its form without creating an entry or raising; an entry is created
from `select_student` only when both the submitted input and the stashed
credential are present. -/
theorem C10_select_student_requires_credential :
    (∀ (entries : List Entry) (inp : String)
        (students : Option (List Account)),
      async_step_select_student entries (some inp) ⟨none, students⟩
        = (FlowResult.showForm "select_student" none, ⟨none, students⟩)) ∧
    (∀ (entries : List Entry) (ui : Option String) (st : FlowState)
        (t s : String) (c : Nat),
      (async_step_select_student entries ui st).1
        = FlowResult.createEntry t s c →
      ui ≠ none ∧ st.credential ≠ none) := by
  constructor
  · intro entries inp students
    rfl
  · rintro entries ui ⟨cred, studs⟩ t s c h
    cases ui with
    | none =>
      exact absurd h (by simp [async_step_select_student])
    | some i =>
      cases cred with
      | none =>
        exact absurd h (by simp [async_step_select_student])
      | some cr =>
        exact ⟨Option.some_ne_none i, Option.some_ne_none cr⟩

/-- C10, witness: a submitted student id with no stashed credential
re-renders the form; a creation outcome implies both were present. -/
theorem C10_select_student_requires_credential_witness :
    (async_step_select_student [] (some "1")
        ⟨none, some [⟨⟨1, "Jan", none, "Kowalski"⟩⟩]⟩
      = (FlowResult.showForm "select_student" none,
         ⟨none, some [⟨⟨1, "Jan", none, "Kowalski"⟩⟩]⟩)) ∧
    ((some "1" : Option String) ≠ none ∧
     (FlowState.credential
        ⟨some 7, some [⟨⟨1, "Jan", none, "Kowalski"⟩⟩]⟩) ≠ none) :=
  ⟨C10_select_student_requires_credential.1 [] "1"
      (some [⟨⟨1, "Jan", none, "Kowalski"⟩⟩]),
   C10_select_student_requires_credential.2 [] (some "1")
      ⟨some 7, some [⟨⟨1, "Jan", none, "Kowalski"⟩⟩]⟩
      (_format_student_name ⟨⟨1, "Jan", none, "Kowalski"⟩⟩) "1" 7 rfl⟩

/-- C5: the Entry Store keeps exactly one entry per `student_id`.  A finalize
for an already-bound `student_id` aborts (`already_configured`) and leaves the
store untouched; a first finalize appends a new entry and a second finalize
for the same student aborts without mutating the entry created by the first;
applying any step result never modifies an existing entry (the only in-place
update lives in `async_step_reauth_confirm`). -/
theorem C5_entry_uniqueness_invariant :
    (∀ (entries : List Entry) (P : Account) (c : Nat),
      (∃ e ∈ entries, e.student_id = toString P.pupil.id) →
      finalize entries P c = FlowResult.abort "already_configured" ∧
      ∀ k, applyResult entries k (finalize entries P c) = entries) ∧
    (∀ (entries : List Entry) (P : Account) (c c2 k k2 : Nat),
      (∀ e ∈ entries, e.student_id ≠ toString P.pupil.id) →
      applyResult entries k (finalize entries P c)
        = entries
            ++ [⟨k, _format_student_name P, toString P.pupil.id, c⟩] ∧
      finalize (applyResult entries k (finalize entries P c)) P c2
        = FlowResult.abort "already_configured" ∧
      applyResult (applyResult entries k (finalize entries P c)) k2
          (finalize (applyResult entries k (finalize entries P c)) P c2)
        = entries
            ++ [⟨k, _format_student_name P, toString P.pupil.id, c⟩]) ∧
    (∀ (entries : List Entry) (k : Nat) (r : FlowResult),
      ∀ e ∈ entries, e ∈ applyResult entries k r) := by
  refine ⟨?_, ?_, ?_⟩
  · intro entries P c h
    rw [finalize_aborts entries P c h]
    exact ⟨rfl, fun k => rfl⟩
  · intro entries P c c2 k k2 h
    rw [finalize_creates entries P c h]
    have happ : applyResult entries k
        (FlowResult.createEntry (_format_student_name P)
          (toString P.pupil.id) c)
        = entries
            ++ [⟨k, _format_student_name P, toString P.pupil.id, c⟩] := rfl
    rw [happ]
    have habort : finalize
        (entries ++ [⟨k, _format_student_name P, toString P.pupil.id, c⟩])
        P c2 = FlowResult.abort "already_configured" := by
      apply finalize_aborts
      exact ⟨⟨k, _format_student_name P, toString P.pupil.id, c⟩,
        List.mem_append_right entries (List.mem_singleton_self _), rfl⟩
    rw [habort]
    exact ⟨rfl, rfl, rfl⟩
  · intro entries k r e he
    cases r with
    | createEntry t s c => exact List.mem_append_left _ he
    | abort reason => exact he
    | showForm step err => exact he
    | crash => exact he

/-- C5, witness: finalizing student 1 twice from an empty store — the first
call creates, the second aborts and the store is unchanged. -/
theorem C5_entry_uniqueness_invariant_witness :
    applyResult [] 0
      (finalize [] ⟨⟨1, "Jan", none, "Kowalski"⟩⟩ 7)
      = [⟨0, _format_student_name ⟨⟨1, "Jan", none, "Kowalski"⟩⟩, "1", 7⟩] ∧
    finalize (applyResult [] 0
        (finalize [] ⟨⟨1, "Jan", none, "Kowalski"⟩⟩ 7))
      ⟨⟨1, "Jan", none, "Kowalski"⟩⟩ 9
      = FlowResult.abort "already_configured" ∧
    applyResult (applyResult [] 0
        (finalize [] ⟨⟨1, "Jan", none, "Kowalski"⟩⟩ 7)) 1
      (finalize (applyResult [] 0
        (finalize [] ⟨⟨1, "Jan", none, "Kowalski"⟩⟩ 7))
        ⟨⟨1, "Jan", none, "Kowalski"⟩⟩ 9)
      = [⟨0, _format_student_name ⟨⟨1, "Jan", none, "Kowalski"⟩⟩, "1", 7⟩] :=
  C5_entry_uniqueness_invariant.2.1 [] ⟨⟨1, "Jan", none, "Kowalski"⟩⟩
    7 9 0 1 (by decide)

theorem pyDictGet_eq_none (pairs : List (String × String)) (key : String)
    (h : ∀ p ∈ pairs, p.1 ≠ key) : pyDictGet pairs key = none := by
  induction pairs with
  | nil => rfl
  | cons p rest ih =>
    obtain ⟨k, v⟩ := p
    have hrest := ih (fun q hq => h q (List.mem_cons_of_mem _ hq))
    have hk : k ≠ key := h (k, v) (List.mem_cons_self _ _)
    simp [pyDictGet, hrest, hk]

/-- Looking up a student id in the `select_student` choices dict returns that
student's formatted name, provided the stashed students carry pairwise
distinct ids. -/
theorem pyDictGet_studentChoices (students : List Account) (P : Account)
    (hmem : P ∈ students)
    (hnd : (students.map (fun s => toString s.pupil.id)).Nodup) :
    pyDictGet (studentChoices (some students)) (toString P.pupil.id)
      = some (_format_student_name P) := by
  induction students with
  | nil => cases hmem
  | cons s rest ih =>
    rw [List.map_cons, List.nodup_cons] at hnd
    rcases List.mem_cons.mp hmem with hPs | hPrest
    · subst hPs
      have hnone : pyDictGet (studentChoices (some rest))
          (toString P.pupil.id) = none := by
        apply pyDictGet_eq_none
        intro p hp
        simp only [studentChoices, List.mem_map] at hp
        obtain ⟨t, ht, rfl⟩ := hp
        intro hEq
        exact hnd.1 (List.mem_map.mpr ⟨t, ht, hEq⟩)
      simp only [studentChoices, List.map_cons] at hnone ⊢
      simp [pyDictGet, hnone]
    · have hrec := ih hPrest hnd.2
      simp only [studentChoices, List.map_cons] at hrec ⊢
      simp [pyDictGet, hrec]

/-- C4, counterexample: submitting a stashed profile's id at `select_student`
does not finalize to a Created outcome when that id is already bound to an
existing entry — the unique-id guard aborts with `"already_configured"`. -/
theorem C4_counterexample :
    async_step_auth [⟨0, "Jan Kowalski", "1", 5⟩] (some ⟨"t", "r", "p"⟩)
        none (Except.ok (7, [⟨⟨1, "Jan", none, "Kowalski"⟩⟩,
          ⟨⟨2, "Anna", none, "Nowak"⟩⟩])) ⟨none, none⟩
      = (FlowResult.showForm "select_student" none,
         ⟨some 7, some [⟨⟨1, "Jan", none, "Kowalski"⟩⟩,
           ⟨⟨2, "Anna", none, "Nowak"⟩⟩]⟩) ∧
    (async_step_select_student [⟨0, "Jan Kowalski", "1", 5⟩] (some "1")
        ⟨some 7, some [⟨⟨1, "Jan", none, "Kowalski"⟩⟩,
          ⟨⟨2, "Anna", none, "Nowak"⟩⟩]⟩).1
      = FlowResult.abort "already_configured" ∧
    FlowResult.abort "already_configured"
      ≠ FlowResult.createEntry
          (_format_student_name ⟨⟨1, "Jan", none, "Kowalski"⟩⟩) "1" 7 :=
  ⟨rfl, rfl, by decide⟩

/-- C4, amended: with more than one profile returned (pairwise-distinct ids),
`auth` stashes the credential and profiles and renders `select_student`;
submitting any stashed profile's id whose student_id is not already bound to
an existing entry finalizes to a Created outcome carrying that profile's
formatted name, its pupil id, and the stashed credential. -/
theorem C4_multi_profile_select (entries : List Entry) (inp : LoginInput)
    (cred : Nat) (students : List Account) (st : FlowState) (P : Account)
    (hlen : 1 < students.length) (hmem : P ∈ students)
    (hnd : (students.map (fun s => toString s.pupil.id)).Nodup)
    (hP : ∀ e ∈ entries, e.student_id ≠ toString P.pupil.id) :
    async_step_auth entries (some inp) none
        (Except.ok (cred, students)) st
      = (FlowResult.showForm "select_student" none,
         ⟨some cred, some students⟩) ∧
    (async_step_select_student entries (some (toString P.pupil.id))
        ⟨some cred, some students⟩).1
      = FlowResult.createEntry (_format_student_name P)
          (toString P.pupil.id) cred := by
  constructor
  · simp only [async_step_auth]
    rw [if_pos hlen]
    rfl
  · have hany : entries.any
        (fun e => e.student_id == toString P.pupil.id) = false := by
      simp only [List.any_eq_false]
      intro e he
      simpa using hP e he
    simp only [async_step_select_student, hany,
      pyDictGet_studentChoices students P hmem hnd]
    simp

/-- C4, witness: empty store, two stashed students, student 2 selected. -/
theorem C4_multi_profile_select_witness :
    async_step_auth [] (some ⟨"t", "r", "p"⟩) none
        (Except.ok (7, [⟨⟨1, "Jan", none, "Kowalski"⟩⟩,
          ⟨⟨2, "Anna", none, "Nowak"⟩⟩])) ⟨none, none⟩
      = (FlowResult.showForm "select_student" none,
         ⟨some 7, some [⟨⟨1, "Jan", none, "Kowalski"⟩⟩,
           ⟨⟨2, "Anna", none, "Nowak"⟩⟩]⟩) ∧
    (async_step_select_student [] (some (toString (2 : Nat)))
        ⟨some 7, some [⟨⟨1, "Jan", none, "Kowalski"⟩⟩,
          ⟨⟨2, "Anna", none, "Nowak"⟩⟩]⟩).1
      = FlowResult.createEntry
          (_format_student_name ⟨⟨2, "Anna", none, "Nowak"⟩⟩) "2" 7 :=
  C4_multi_profile_select [] ⟨"t", "r", "p"⟩ 7
    [⟨⟨1, "Jan", none, "Kowalski"⟩⟩, ⟨⟨2, "Anna", none, "Nowak"⟩⟩]
    ⟨none, none⟩ ⟨⟨2, "Anna", none, "Nowak"⟩⟩
    (by decide) (by decide) (by decide) (by decide)

/-! ### Reauthentication fold lemmas -/

theorem passEntry_entry_id (c : Nat) (s : Account) (e : Entry) :
    (if toString s.pupil.id == e.student_id then updateEntry c s e
     else e).entry_id = e.entry_id := by
  by_cases h : (toString s.pupil.id == e.student_id) = true
  · simp [h, updateEntry]
  · simp [h]

theorem passEntry_student_id (c : Nat) (s : Account) (e : Entry) :
    (if toString s.pupil.id == e.student_id then updateEntry c s e
     else e).student_id = e.student_id := by
  by_cases h : (toString s.pupil.id == e.student_id) = true
  · simp only [h, if_true, updateEntry]
    exact beq_iff_eq.mp h
  · simp [h]

theorem any_pointwise {α : Type} (l : List α) (p q : α → Bool)
    (h : ∀ a ∈ l, p a = q a) : l.any p = l.any q := by
  induction l with
  | nil => rfl
  | cons a t ih =>
    simp only [List.any_cons, h a (List.mem_cons_self a t),
      ih (fun b hb => h b (List.mem_cons_of_mem a hb))]

/-- One student pass preserves which student ids are present among the
entries, so later match tests are unaffected by earlier updates. -/
theorem pass_any (c : Nat) (s s2 : Account) (es : List Entry) :
    (es.map (fun e => if toString s.pupil.id == e.student_id then
        updateEntry c s e else e)).any
      (fun e => toString s2.pupil.id == e.student_id)
      = es.any (fun e => toString s2.pupil.id == e.student_id) := by
  rw [List.any_map]
  apply any_pointwise
  intro e he
  simp only [Function.comp]
  rw [passEntry_student_id]

/-- One student pass preserves the reload contribution (entry ids of matching
entries) computed for any other student. -/
theorem pass_contribution (c : Nat) (s s2 : Account) (es : List Entry) :
    ((es.map (fun e => if toString s.pupil.id == e.student_id then
        updateEntry c s e else e)).filter
      (fun e => toString s2.pupil.id == e.student_id)).map
      (fun e => e.entry_id)
      = (es.filter (fun e => toString s2.pupil.id == e.student_id)).map
          (fun e => e.entry_id) := by
  rw [List.filter_map, List.map_map]
  rw [List.filter_congr (fun e he => by
    simp only [Function.comp]
    rw [passEntry_student_id])]
  apply List.map_congr_left
  intro e he
  simp only [Function.comp]
  rw [passEntry_entry_id]

/-- The `matching_entries` flag after the reauthentication loop: true iff
some returned student matches some entry. -/
theorem reauth_fold_flag (c : Nat) (students : List Account) :
    ∀ (es : List Entry) (rs : List Nat) (m : Bool),
    (students.foldl (reauthStudentPass c) (es, rs, m)).2.2
      = (m || students.any (fun s =>
          es.any (fun e => toString s.pupil.id == e.student_id))) := by
  induction students with
  | nil =>
    intro es rs m
    simp
  | cons s rest ih =>
    intro es rs m
    rw [List.foldl_cons,
      show reauthStudentPass c (es, rs, m) s
        = (es.map (fun e => if toString s.pupil.id == e.student_id then
              updateEntry c s e else e),
           rs ++ (es.filter
             (fun e => toString s.pupil.id == e.student_id)).map
             (fun e => e.entry_id),
           m || es.any
             (fun e => toString s.pupil.id == e.student_id)) from rfl,
      ih]
    rw [any_pointwise rest _ _ (fun s2 hs2 => pass_any c s s2 es)]
    simp [Bool.or_assoc]

/-- The reloaded entry ids after the reauthentication loop: for each student
in order, the ids of the entries matching it. -/
theorem reauth_fold_reloads (c : Nat) (students : List Account) :
    ∀ (es : List Entry) (rs : List Nat) (m : Bool),
    (students.foldl (reauthStudentPass c) (es, rs, m)).2.1
      = rs ++ (students.map (fun s =>
          (es.filter (fun e => toString s.pupil.id == e.student_id)).map
            (fun e => e.entry_id))).flatten := by
  induction students with
  | nil =>
    intro es rs m
    simp
  | cons s rest ih =>
    intro es rs m
    rw [List.foldl_cons,
      show reauthStudentPass c (es, rs, m) s
        = (es.map (fun e => if toString s.pupil.id == e.student_id then
              updateEntry c s e else e),
           rs ++ (es.filter
             (fun e => toString s.pupil.id == e.student_id)).map
             (fun e => e.entry_id),
           m || es.any
             (fun e => toString s.pupil.id == e.student_id)) from rfl,
      ih]
    rw [List.map_congr_left (fun s2 hs2 => pass_contribution c s s2 es)]
    simp [List.append_assoc]

/-- The entry list after the reauthentication loop, when the returned students
carry pairwise distinct ids: each entry matched by a student is updated with
that student's data, every other entry is untouched. -/
theorem reauth_fold_entries (c : Nat) (students : List Account) :
    ∀ (es : List Entry) (rs : List Nat) (m : Bool),
    (students.map (fun s => toString s.pupil.id)).Nodup →
    (students.foldl (reauthStudentPass c) (es, rs, m)).1
      = es.map (fun e =>
          match students.find?
              (fun s => toString s.pupil.id == e.student_id) with
          | some s => updateEntry c s e
          | none => e) := by
  induction students with
  | nil =>
    intro es rs m _
    simp
  | cons s rest ih =>
    intro es rs m hnd
    rw [List.map_cons, List.nodup_cons] at hnd
    rw [List.foldl_cons,
      show reauthStudentPass c (es, rs, m) s
        = (es.map (fun e => if toString s.pupil.id == e.student_id then
              updateEntry c s e else e),
           rs ++ (es.filter
             (fun e => toString s.pupil.id == e.student_id)).map
             (fun e => e.entry_id),
           m || es.any
             (fun e => toString s.pupil.id == e.student_id)) from rfl,
      ih _ _ _ hnd.2, List.map_map]
    apply List.map_congr_left
    intro e he
    simp only [Function.comp]
    by_cases h : (toString s.pupil.id == e.student_id) = true
    · rw [if_pos h]
      have hfn : rest.find? (fun s2 =>
          toString s2.pupil.id == (updateEntry c s e).student_id)
          = none := by
        apply List.find?_eq_none.mpr
        intro s2 hs2 hbeq
        apply hnd.1
        exact List.mem_map.mpr ⟨s2, hs2, by simpa [updateEntry] using hbeq⟩
      rw [hfn]
      simp [List.find?_cons, h]
    · rw [if_neg h]
      simp [List.find?_cons, h]

/-- C6: a successful `reauth_confirm` whose returned profiles (with pairwise
distinct pupil ids) match no existing entry aborts with
`no_matching_entries`, mutating no entry and reloading nothing; if at least
one profile matches, exactly the matching entries are updated in place (title
replaced by the new formatted display name, payload replaced by the matched
student id and the newly issued credential), each updated entry's id appears
in the reload list, only matching entries are reloaded, and the step aborts
with `reauth_successful`. -/
theorem C6_reauth_reconciliation (entries : List Entry) (inp : LoginInput)
    (cred : Nat) (students : List Account)
    (hnd : (students.map (fun s => toString s.pupil.id)).Nodup) :
    ((∀ s ∈ students, ∀ e ∈ entries, toString s.pupil.id ≠ e.student_id) →
      async_step_reauth_confirm entries (some inp)
          (Except.ok (cred, students))
        = (FlowResult.abort "no_matching_entries", entries, [])) ∧
    ((∃ s ∈ students, ∃ e ∈ entries, toString s.pupil.id = e.student_id) →
      (async_step_reauth_confirm entries (some inp)
          (Except.ok (cred, students))).1
        = FlowResult.abort "reauth_successful" ∧
      (async_step_reauth_confirm entries (some inp)
          (Except.ok (cred, students))).2.1
        = entries.map (fun e =>
            match students.find?
                (fun s => toString s.pupil.id == e.student_id) with
            | some s => updateEntry cred s e
            | none => e) ∧
      (∀ e ∈ entries,
        students.any
          (fun s => toString s.pupil.id == e.student_id) = true →
        e.entry_id ∈ (async_step_reauth_confirm entries (some inp)
          (Except.ok (cred, students))).2.2) ∧
      (∀ i ∈ (async_step_reauth_confirm entries (some inp)
          (Except.ok (cred, students))).2.2,
        ∃ e ∈ entries, e.entry_id = i ∧
          students.any
            (fun s => toString s.pupil.id == e.student_id) = true)) := by
  have hflag := reauth_fold_flag cred students entries [] false
  have hent := reauth_fold_entries cred students entries [] false hnd
  have hrel := reauth_fold_reloads cred students entries [] false
  constructor
  · intro hno
    have hanyf : students.any (fun s =>
        entries.any (fun e => toString s.pupil.id == e.student_id))
        = false := by
      simp only [List.any_eq_false]
      intro s hs
      simp only [Bool.not_eq_true, List.any_eq_false]
      intro e he
      simpa using hno s hs e he
    have hflagv : (students.foldl (reauthStudentPass cred)
        (entries, [], false)).2.2 = false := by
      rw [hflag, hanyf]
      rfl
    have hentv : (students.foldl (reauthStudentPass cred)
        (entries, [], false)).1 = entries := by
      rw [hent]
      have hid : ∀ e ∈ entries,
          (match students.find?
              (fun s => toString s.pupil.id == e.student_id) with
            | some s => updateEntry cred s e
            | none => e) = e := by
        intro e he
        have hfn : students.find?
            (fun s => toString s.pupil.id == e.student_id) = none := by
          apply List.find?_eq_none.mpr
          intro s hs hbeq
          exact hno s hs e he (by simpa using hbeq)
        rw [hfn]
      rw [List.map_congr_left hid, List.map_id']
    have hrelv : (students.foldl (reauthStudentPass cred)
        (entries, [], false)).2.1 = [] := by
      rw [hrel, List.nil_append]
      apply List.flatten_eq_nil_iff.mpr
      intro l hl
      obtain ⟨s, hs, rfl⟩ := List.mem_map.mp hl
      have hfe : entries.filter
          (fun e => toString s.pupil.id == e.student_id) = [] := by
        apply List.filter_eq_nil_iff.mpr
        intro e he hbeq
        exact hno s hs e he (by simpa using hbeq)
      rw [hfe]
      rfl
    show (if (students.foldl (reauthStudentPass cred)
        (entries, [], false)).2.2 then _ else _) = _
    rw [hflagv]
    simp only [if_neg Bool.false_ne_true, hentv, hrelv]
  · intro hex
    have hanyt : students.any (fun s =>
        entries.any (fun e => toString s.pupil.id == e.student_id))
        = true := by
      obtain ⟨s, hs, e, he, heq⟩ := hex
      apply List.any_eq_true.mpr
      exact ⟨s, hs, List.any_eq_true.mpr ⟨e, he, by simpa using heq⟩⟩
    have hflagv : (students.foldl (reauthStudentPass cred)
        (entries, [], false)).2.2 = true := by
      rw [hflag, hanyt]
      rfl
    have hstep : async_step_reauth_confirm entries (some inp)
        (Except.ok (cred, students))
        = (FlowResult.abort "reauth_successful",
           (students.foldl (reauthStudentPass cred)
             (entries, [], false)).1,
           (students.foldl (reauthStudentPass cred)
             (entries, [], false)).2.1) := by
      show (if (students.foldl (reauthStudentPass cred)
          (entries, [], false)).2.2 then _ else _) = _
      rw [hflagv]
      simp
    refine ⟨by rw [hstep], by rw [hstep]; exact hent, ?_, ?_⟩
    · intro e he hmatch
      rw [hstep]
      show e.entry_id ∈ (students.foldl (reauthStudentPass cred)
        (entries, [], false)).2.1
      rw [hrel, List.nil_append]
      obtain ⟨s, hs, hbeq⟩ := List.any_eq_true.mp hmatch
      apply List.mem_flatten.mpr
      refine ⟨(entries.filter (fun e2 =>
        toString s.pupil.id == e2.student_id)).map
          (fun e2 => e2.entry_id),
        List.mem_map.mpr ⟨s, hs, rfl⟩, ?_⟩
      exact List.mem_map.mpr ⟨e, List.mem_filter.mpr ⟨he, hbeq⟩, rfl⟩
    · intro i hi
      rw [hstep] at hi
      replace hi : i ∈ (students.foldl (reauthStudentPass cred)
        (entries, [], false)).2.1 := hi
      rw [hrel, List.nil_append] at hi
      obtain ⟨l, hl, hil⟩ := List.mem_flatten.mp hi
      obtain ⟨s, hs, rfl⟩ := List.mem_map.mp hl
      obtain ⟨e, hef, rfl⟩ := List.mem_map.mp hil
      obtain ⟨he, hbeq⟩ := List.mem_filter.mp hef
      exact ⟨e, he, rfl, List.any_eq_true.mpr ⟨s, hs, hbeq⟩⟩

/-- C6, witness: one entry for student 1.  A reauth returning only student 2
aborts `no_matching_entries` and touches nothing; a reauth returning student
1 (new middle name, new credential 9) aborts `reauth_successful` and reloads
entry 0. -/
theorem C6_reauth_reconciliation_witness :
    async_step_reauth_confirm [⟨0, "Jan Kowalski", "1", 5⟩]
        (some ⟨"t", "r", "p"⟩)
        (Except.ok (9, [⟨⟨2, "Anna", none, "Nowak"⟩⟩]))
      = (FlowResult.abort "no_matching_entries",
         [⟨0, "Jan Kowalski", "1", 5⟩], []) ∧
    (async_step_reauth_confirm [⟨0, "Jan Kowalski", "1", 5⟩]
        (some ⟨"t", "r", "p"⟩)
        (Except.ok (9, [⟨⟨1, "Jan", some "Maria", "Kowalski"⟩⟩]))).1
      = FlowResult.abort "reauth_successful" ∧
    (0 : Nat) ∈ (async_step_reauth_confirm [⟨0, "Jan Kowalski", "1", 5⟩]
        (some ⟨"t", "r", "p"⟩)
        (Except.ok (9, [⟨⟨1, "Jan", some "Maria", "Kowalski"⟩⟩]))).2.2 :=
  ⟨(C6_reauth_reconciliation [⟨0, "Jan Kowalski", "1", 5⟩] ⟨"t", "r", "p"⟩
      9 [⟨⟨2, "Anna", none, "Nowak"⟩⟩] (by decide)).1 (by decide),
   ((C6_reauth_reconciliation [⟨0, "Jan Kowalski", "1", 5⟩] ⟨"t", "r", "p"⟩
      9 [⟨⟨1, "Jan", some "Maria", "Kowalski"⟩⟩] (by decide)).2
      (by decide)).1,
   ((C6_reauth_reconciliation [⟨0, "Jan Kowalski", "1", 5⟩] ⟨"t", "r", "p"⟩
      9 [⟨⟨1, "Jan", some "Maria", "Kowalski"⟩⟩] (by decide)).2
      (by decide)).2.2.1 ⟨0, "Jan Kowalski", "1", 5⟩ (by decide)
      (by decide)⟩
